import Mathlib

/-!
Shallow embedding of the resize2fs driver (src/resize/main.c) and proofs
about its preflight, size-resolution, gating, engine-invocation and
progress-multiplexing behaviour.

External collaborators (the ext2fs storage library, the resize engine, the
progress-meter library and the kernel flush ioctl) are modelled as an
environment record holding the results they would return; the driver logic
itself is translated statement-by-statement from main.c.  Observable actions
(messages, gate failures, engine invocation, handle close) are recorded in an
event trace; the first component of a run result is the process exit code.
-/

namespace Resize2fs

/-- Superblock fields that main.c reads: block count, timestamps used by the
consistency gate, and the three feature bitmasks (main.c reads only
s_feature_compat and s_feature_incompat; s_feature_ro_compat is carried to
show it is never consulted). -/
structure Ext2Sb where
  s_blocks_count : Nat
  s_lastcheck : Nat
  s_mtime : Nat
  s_feature_compat : Nat
  s_feature_incompat : Nat
  s_feature_ro_compat : Nat
deriving Repr, DecidableEq

/-- Results the external collaborators return during one run.
checkIfMounted models ext2fs_check_if_mounted (error code, or the mounted
bit of the returned mount flags); flushOpen and flushIoctl model the
open/BLKFLSBUF pair of the -F path; openFs models ext2fs_open; deviceSize
models ext2fs_get_device_size; engine models resize_fs.  The two supp fields
are the library constants EXT2_LIB_FEATURE_COMPAT_SUPP and
EXT2_LIB_FEATURE_RO_COMPAT_SUPP (compile-time constants of the external
library, so carried here as environment data). -/
structure Env where
  checkIfMounted : Except Nat Bool
  flushOpen : Except Nat Unit
  flushIoctl : Except Nat Unit
  openFs : Except Nat Ext2Sb
  deviceSize : Except Nat Nat
  engine : Except Nat Unit
  featureCompatSupp : Nat
  featureRoCompatSupp : Nat
deriving Repr

/-- Observable events of a run, in program order. -/
inductive Ev where
  | mountProbeErr
  | mountedErr
  | flushPerformed
  | flushOpenErr
  | flushIoctlErr
  | fsOpened
  | openErr
  | featureErr
  | sizeProbeErr
  | capacityErr (requested capacity : Nat)
  | noopMsg (size : Nat)
  | needsCheckMsg
  | engineInvoked (size : Nat) (withProgress : Bool)
  | engineErrReported
  | fsClosed
  | successMsg (size : Nat)
deriving Repr, DecidableEq

/-- Modelled from the spec: RESIZE_PERCENT_COMPLETE is the bit of the option
flag bitset that requests percent-style progress reporting.  Its numeric
value lives in resize2fs.h, which is not among the given sources; the value
itself is irrelevant to the claims, only that it is one fixed bit pattern
shared by the -p case and the engine-callback decision. -/
def RESIZE_PERCENT_COMPLETE : Nat := 256

/-- Low 32 bits, the width of the on-disk feature bitmask fields. -/
def mask32 : Nat := 4294967295

/-- The C test (field AND the complement of supp) on 32-bit feature masks: true when the field
has a bit outside the supported mask. -/
def featureUnsupported (field supp : Nat) : Bool :=
  field &&& (mask32 ^^^ (supp &&& mask32)) != 0

/-- Lines 257-258 of main.c: a zero (= absent) request resolves to the probed
device capacity, any other request resolves to itself. -/
def resolveSize (new_size max_size : Nat) : Nat :=
  if new_size = 0 then max_size else new_size

/-- Whether the combined flag bitset requests percent progress; main.c passes
the progress callback to resize_fs exactly when this holds (lines 276-278). -/
def progressRequested (flags : Nat) : Bool :=
  flags &&& RESIZE_PERCENT_COMPLETE != 0

/-- check_mount (main.c lines 91-109): a probe error is reported and the
function returns, letting the run continue; a mounted device prints the
mounted error and exits 1.  Result: events emitted, and whether the run is
aborted (exit 1). -/
def check_mount (probe : Except Nat Bool) : List Ev × Bool :=
  match probe with
  | .error _ => ([Ev.mountProbeErr], false)
  | .ok mounted => if mounted then ([Ev.mountedErr], true) else ([], false)

/-- Main.c lines 237-286: everything after a successful ext2fs_open — the
feature gate, the device-size probe, size resolution, the capacity gate, the
no-op exit, the consistency gate, and the engine invocation with its
reporting tail (note: on engine failure the code reports and closes the
handle but then still prints the success message and returns 0). -/
def mainAfterOpen (force : Bool) (flags : Nat) (new_size0 : Nat) (env : Env)
    (sb : Ext2Sb) : Nat × List Ev :=
  if featureUnsupported sb.s_feature_compat env.featureCompatSupp = true ∨
     featureUnsupported sb.s_feature_incompat env.featureRoCompatSupp = true then
    (1, [Ev.featureErr])
  else
    match env.deviceSize with
    | .error _ => (1, [Ev.sizeProbeErr])
    | .ok max_size =>
      if force = false ∧ max_size < resolveSize new_size0 max_size then
        (1, [Ev.capacityErr (resolveSize new_size0 max_size) max_size])
      else if resolveSize new_size0 max_size = sb.s_blocks_count then
        (0, [Ev.noopMsg (resolveSize new_size0 max_size)])
      else if force = false ∧ sb.s_lastcheck < sb.s_mtime then
        (1, [Ev.needsCheckMsg])
      else
        match env.engine with
        | .error _ =>
          (0, [Ev.engineInvoked (resolveSize new_size0 max_size) (progressRequested flags),
               Ev.engineErrReported, Ev.fsClosed,
               Ev.successMsg (resolveSize new_size0 max_size)])
        | .ok _ =>
          (0, [Ev.engineInvoked (resolveSize new_size0 max_size) (progressRequested flags),
               Ev.successMsg (resolveSize new_size0 max_size)])

/-- Main.c lines 225-286: ext2fs_open and everything after it; fsOpened is a
trace marker for a successful open. -/
def mainAfterFlush (force : Bool) (flags : Nat) (new_size0 : Nat) (env : Env) :
    Nat × List Ev :=
  match env.openFs with
  | .error _ => (1, [Ev.openErr])
  | .ok sb =>
    let r := mainAfterOpen force flags new_size0 env sb
    (r.1, Ev.fsOpened :: r.2)

/-- The driver run (main.c lines 184-286), from the already-parsed request:
the optional size argument (None when absent, modelling the blk_t that stays
0), then check_mount, then the optional -F flush (open + BLKFLSBUF ioctl,
each failure fatal), then open/gates/engine. -/
def runMain (force flush : Bool) (flags : Nat) (sizeArg : Option Nat)
    (env : Env) : Nat × List Ev :=
  let new_size0 := sizeArg.getD 0
  let m := check_mount env.checkIfMounted
  if m.2 then (1, m.1)
  else if flush then
    match env.flushOpen with
    | .error _ => (1, m.1 ++ [Ev.flushOpenErr])
    | .ok _ =>
      match env.flushIoctl with
      | .error _ => (1, m.1 ++ [Ev.flushIoctlErr])
      | .ok _ =>
        let r := mainAfterFlush force flags new_size0 env
        (r.1, m.1 ++ (Ev.flushPerformed :: r.2))
  else
    let r := mainAfterFlush force flags new_size0 env
    (r.1, m.1 ++ r.2)

/-- Command-line options recognized by the getopt loop (main.c lines
156-176), request-shaping only (-h and parse errors are usage exits, out of
scope per the spec). -/
inductive Opt where
  | d (mask : Nat)
  | f
  | F
  | p
deriving Repr, DecidableEq

/-- Accumulated option state: the debug/progress flag bitset and the two
boolean switches. -/
structure Parsed where
  flags : Nat
  force : Bool
  flush : Bool
deriving Repr, DecidableEq

/-- One getopt case: -d ORs its mask into flags, -p ORs in
RESIZE_PERCENT_COMPLETE, -f and -F set their switches. -/
def applyOpt (st : Parsed) (o : Opt) : Parsed :=
  match o with
  | .d m => { st with flags := st.flags ||| m }
  | .f => { st with force := true }
  | .F => { st with flush := true }
  | .p => { st with flags := st.flags ||| RESIZE_PERCENT_COMPLETE }

/-- The whole getopt loop over the option list, starting from all-clear. -/
def parseOpts (os : List Opt) : Parsed :=
  os.foldl applyOpt { flags := 0, force := false, flush := false }

/-- A full run from parsed options. -/
def runCli (os : List Opt) (sizeArg : Option Nat) (env : Env) : Nat × List Ev :=
  let p := parseOpts os
  runMain p.force p.flush p.flags sizeArg env

/-! Progress multiplexer (resize_progress_func, main.c lines 39-89). -/

/-- Modelled from resize2fs.h (not among the given sources): the pass
identifiers of the engine pass set (a closed set); the values are irrelevant to
the claims, only that they are distinct. -/
def E2_RSZ_EXTEND_ITABLE_PASS : Nat := 1

def E2_RSZ_BLOCK_RELOC_PASS : Nat := 2

def E2_RSZ_INODE_SCAN_PASS : Nat := 3

def E2_RSZ_INODE_REF_UPD_PASS : Nat := 4

def E2_RSZ_MOVE_ITABLE_PASS : Nat := 5

/-- The switch on the pass identifier (main.c lines 53-72). -/
def passLabel (pass : Nat) : String :=
  if pass = E2_RSZ_EXTEND_ITABLE_PASS then "Extending the inode table"
  else if pass = E2_RSZ_BLOCK_RELOC_PASS then "Relocating blocks"
  else if pass = E2_RSZ_INODE_SCAN_PASS then "Scanning inode table"
  else if pass = E2_RSZ_INODE_REF_UPD_PASS then "Updating inode references"
  else if pass = E2_RSZ_MOVE_ITABLE_PASS then "Moving inode table"
  else "Unknown pass?!?"

/-- Calls the multiplexer makes on the progress-meter collaborator. -/
inductive PCall where
  | openInd (label : String) (max : Nat)
  | update (cur : Nat)
  | closeInd
deriving Repr, DecidableEq

/-- One invocation of resize_progress_func.  State is the rfs->prog_data
slot: Some () when an indicator is open.  initOk models whether
ext2fs_progress_init succeeds (on failure the code degrades to no visual
progress).  Returns the new state and the calls made, in order.  Faithful to
the source: a max of 0 is a no-op; a cur of 0 closes any stale indicator and
opens a fresh one; then, whenever an indicator is live, an update with cur is
issued (also on the opening and completion events, since the source has no
else between those blocks); finally cur at or past max closes and clears. -/
def progressStep (initOk : Bool) (st : Option Unit) (pass cur max : Nat) :
    Option Unit × List PCall :=
  if max = 0 then (st, [])
  else
    let opened :=
      if cur = 0 then
        let closes : List PCall := if st.isSome then [PCall.closeInd] else []
        let st1 : Option Unit := if initOk then some () else none
        (st1, closes ++ [PCall.openInd (passLabel pass) max])
      else (st, [])
    let calls := opened.2 ++ (if opened.1.isSome then [PCall.update cur] else [])
    if max ≤ cur then
      (none, calls ++ (if opened.1.isSome then [PCall.closeInd] else []))
    else (opened.1, calls)

/-- Feed a scripted event sequence through the multiplexer, collecting all
calls and the final state. -/
def progressRun (initOk : Bool) (evs : List (Nat × Nat × Nat)) :
    Option Unit × List PCall :=
  evs.foldl
    (fun acc e =>
      let r := progressStep initOk acc.1 e.1 e.2.1 e.2.2
      (r.1, acc.2 ++ r.2))
    (none, [])

/-- Number of indicator-open calls in a call list. -/
def countOpens (cs : List PCall) : Nat :=
  cs.countP fun c => match c with | .openInd _ _ => true | _ => false

/-- Number of indicator-update calls in a call list. -/
def countUpdates (cs : List PCall) : Nat :=
  cs.countP fun c => match c with | .update _ => true | _ => false

/-- Number of indicator-close calls in a call list. -/
def countCloses (cs : List PCall) : Nat :=
  cs.countP fun c => match c with | .closeInd => true | _ => false

/-- An event is intermediate when its current is neither 0 nor at/past its
maximum. -/
def isIntermediate (e : Nat × Nat × Nat) : Bool :=
  decide (e.2.1 ≠ 0) && decide (e.2.1 < e.2.2)

/-- The scripted sequence of the round-trip property: pass A is the
block-relocation pass, pass B the inode-scan pass. -/
def script : List (Nat × Nat × Nat) :=
  [(E2_RSZ_BLOCK_RELOC_PASS, 0, 100), (E2_RSZ_BLOCK_RELOC_PASS, 50, 100),
   (E2_RSZ_BLOCK_RELOC_PASS, 100, 100), (E2_RSZ_INODE_SCAN_PASS, 0, 10),
   (E2_RSZ_INODE_SCAN_PASS, 10, 10)]

/-! Concrete fixtures used by witnesses and counterexamples. -/

/-- A clean superblock: 500 blocks, last check after last modification, all
feature bits clear. -/
def sbBase : Ext2Sb :=
  { s_blocks_count := 500, s_lastcheck := 10, s_mtime := 5,
    s_feature_compat := 0, s_feature_incompat := 0, s_feature_ro_compat := 0 }

/-- A benign environment: unmounted device of capacity 1000, flush and open
succeed, engine succeeds, both library support masks empty. -/
def envBase : Env :=
  { checkIfMounted := .ok false, flushOpen := .ok (), flushIoctl := .ok (),
    openFs := .ok sbBase, deviceSize := .ok 1000, engine := .ok (),
    featureCompatSupp := 0, featureRoCompatSupp := 0 }

/-! Helper lemmas shared by several proofs. -/

/-- On an unmounted device whose flush step (when requested) succeeds, a run
is the after-flush stage, with at most a flushPerformed marker in front. -/
theorem runMain_unmounted_shape (force flush : Bool) (flags : Nat)
    (sizeArg : Option Nat) (env : Env)
    (hm : env.checkIfMounted = .ok false)
    (hfl : flush = false ∨ (env.flushOpen = .ok () ∧ env.flushIoctl = .ok ())) :
    runMain force flush flags sizeArg env =
      ((mainAfterFlush force flags (sizeArg.getD 0) env).1,
       (if flush then [Ev.flushPerformed] else []) ++
         (mainAfterFlush force flags (sizeArg.getD 0) env).2) := by
  rcases hfl with h | ⟨h1, h2⟩
  · subst h
    simp [runMain, check_mount, hm]
  · cases flush <;> simp [runMain, check_mount, hm, h1, h2]

/-- Complete case analysis of the after-open stage: its result is exactly
one of the feature failure, the probe failure, the capacity failure (only
without force), the no-op success, the fsck-needed failure (only without
force), or the two engine outcomes. -/
theorem mainAfterOpen_cases (force : Bool) (flags n0 : Nat) (env : Env)
    (sb : Ext2Sb) :
    mainAfterOpen force flags n0 env sb = (1, [Ev.featureErr]) ∨
    mainAfterOpen force flags n0 env sb = (1, [Ev.sizeProbeErr]) ∨
    ∃ cap, env.deviceSize = Except.ok cap ∧
      ((force = false ∧ mainAfterOpen force flags n0 env sb =
          (1, [Ev.capacityErr (resolveSize n0 cap) cap])) ∨
       mainAfterOpen force flags n0 env sb =
          (0, [Ev.noopMsg (resolveSize n0 cap)]) ∨
       (force = false ∧ mainAfterOpen force flags n0 env sb =
          (1, [Ev.needsCheckMsg])) ∨
       mainAfterOpen force flags n0 env sb =
          (0, [Ev.engineInvoked (resolveSize n0 cap) (progressRequested flags),
               Ev.engineErrReported, Ev.fsClosed,
               Ev.successMsg (resolveSize n0 cap)]) ∨
       mainAfterOpen force flags n0 env sb =
          (0, [Ev.engineInvoked (resolveSize n0 cap) (progressRequested flags),
               Ev.successMsg (resolveSize n0 cap)])) := by
  by_cases hf : featureUnsupported sb.s_feature_compat env.featureCompatSupp = true ∨
      featureUnsupported sb.s_feature_incompat env.featureRoCompatSupp = true
  · left
    unfold mainAfterOpen
    rw [if_pos hf]
  · rcases hd : env.deviceSize with e | cap
    · right; left
      unfold mainAfterOpen
      rw [if_neg hf, hd]
    · right; right
      refine ⟨cap, rfl, ?_⟩
      by_cases h1 : force = false ∧ cap < resolveSize n0 cap
      · exact Or.inl ⟨h1.1, by unfold mainAfterOpen; rw [if_neg hf, hd]; simp [if_pos h1]⟩
      · by_cases h2 : resolveSize n0 cap = sb.s_blocks_count
        · refine Or.inr (Or.inl ?_)
          unfold mainAfterOpen
          rw [if_neg hf, hd]
          simp [if_neg h1, if_pos h2]
        · by_cases h3 : force = false ∧ sb.s_lastcheck < sb.s_mtime
          · refine Or.inr (Or.inr (Or.inl ⟨h3.1, ?_⟩))
            unfold mainAfterOpen
            rw [if_neg hf, hd]
            simp [if_neg h1, if_neg h2, if_pos h3]
          · rcases he : env.engine with e2 | u
            · refine Or.inr (Or.inr (Or.inr (Or.inl ?_)))
              unfold mainAfterOpen
              rw [if_neg hf, hd]
              simp [if_neg h1, if_neg h2, if_neg h3, he]
            · refine Or.inr (Or.inr (Or.inr (Or.inr ?_)))
              unfold mainAfterOpen
              rw [if_neg hf, hd]
              simp [if_neg h1, if_neg h2, if_neg h3, he]

/-- Every engine-invocation event recorded by the after-open stage carries
the progress-callback decision computed from the flag bitset. -/
theorem engineInvoked_mem_afterOpen (force : Bool) (flags n0 : Nat) (env : Env)
    (sb : Ext2Sb) (s : Nat) (b : Bool)
    (h : Ev.engineInvoked s b ∈ (mainAfterOpen force flags n0 env sb).2) :
    b = progressRequested flags := by
  rcases mainAfterOpen_cases force flags n0 env sb with
    h0 | h0 | ⟨cap, _, ⟨_, h0⟩ | h0 | ⟨_, h0⟩ | h0 | h0⟩ <;>
    rw [h0] at h <;> simp_all

/-- With force set, the after-open stage never emits a capacity error. -/
theorem capacityErr_not_mem_afterOpen_force (flags n0 : Nat) (env : Env)
    (sb : Ext2Sb) (r c : Nat) :
    Ev.capacityErr r c ∉ (mainAfterOpen true flags n0 env sb).2 := by
  rcases mainAfterOpen_cases true flags n0 env sb with
    h0 | h0 | ⟨cap, _, ⟨hx, h0⟩ | h0 | ⟨hx, h0⟩ | h0 | h0⟩ <;>
    first
      | exact absurd hx (by simp)
      | (rw [h0]; simp)

/-- With force set, the after-open stage never emits the fsck-needed
message. -/
theorem needsCheck_not_mem_afterOpen_force (flags n0 : Nat) (env : Env)
    (sb : Ext2Sb) :
    Ev.needsCheckMsg ∉ (mainAfterOpen true flags n0 env sb).2 := by
  rcases mainAfterOpen_cases true flags n0 env sb with
    h0 | h0 | ⟨cap, _, ⟨hx, h0⟩ | h0 | ⟨hx, h0⟩ | h0 | h0⟩ <;>
    first
      | exact absurd hx (by simp)
      | (rw [h0]; simp)

/-- When the gates up to the consistency gate all pass and the resolved size
differs from the current one, the after-open stage exits 0 and its trace
starts with the engine invocation at the resolved size. -/
theorem mainAfterOpen_engine_shape (force : Bool) (flags n0 : Nat) (env : Env)
    (sb : Ext2Sb) (cap : Nat)
    (hfc : featureUnsupported sb.s_feature_compat env.featureCompatSupp = false)
    (hfi : featureUnsupported sb.s_feature_incompat env.featureRoCompatSupp = false)
    (hd : env.deviceSize = .ok cap)
    (hcap : ¬(force = false ∧ cap < resolveSize n0 cap))
    (hne : resolveSize n0 cap ≠ sb.s_blocks_count)
    (hck : ¬(force = false ∧ sb.s_lastcheck < sb.s_mtime)) :
    (mainAfterOpen force flags n0 env sb).1 = 0 ∧
    Ev.engineInvoked (resolveSize n0 cap) (progressRequested flags) ∈
      (mainAfterOpen force flags n0 env sb).2 := by
  unfold mainAfterOpen
  rcases he : env.engine with e | u <;>
    simp [hfc, hfi, hd, hcap, hne, hck]

/-! Claim C1. -/

/-- Claim C1, evaluated at the failing input: on a run in which the engine
fails (unmounted 1000-block device, clean 500-block filesystem, requested
size 800, engine returns error 7), the driver reports the engine error and
closes the handle, but then still prints the success message with the new
size and returns exit code 0 — contradicting the specified exit code 1 and
the specified absence of the success message.  The error-reporting branch of
main.c lines 279-283 lacks an exit, so control falls through to the success
printf and return 0. -/
theorem claim_C1_engine_failure_exits_zero :
    runMain false false 0 (some 800) { envBase with engine := .error 7 } =
      (0, [Ev.fsOpened, Ev.engineInvoked 800 false, Ev.engineErrReported,
           Ev.fsClosed, Ev.successMsg 800]) := by decide

/-! Claim C2. -/

/-- Claim C2 counterexample: a run in which the mount-state probe fails
(error 5) is not fatal — the driver reports the probe error, then opens the
filesystem, invokes the engine, and exits 0, so a probe error does allow the
run to continue past the mount gate. -/
theorem claim_C2_counterexample :
    runMain false false 0 none { envBase with checkIfMounted := .error 5 } =
      (0, [Ev.mountProbeErr, Ev.fsOpened, Ev.engineInvoked 1000 false,
           Ev.successMsg 1000]) := by decide

/-- After-flush processing never reads the mount-probe result, so replacing
it leaves the stage unchanged. -/
theorem mainAfterFlush_mount_irrel (force : Bool) (flags n0 : Nat) (env : Env)
    (m : Except Nat Bool) :
    mainAfterFlush force flags n0 { env with checkIfMounted := m } =
      mainAfterFlush force flags n0 env := rfl

/-- Claim C2 as amended: when probing the mount state fails, the error is
reported and the run continues exactly as if the probe had reported the
device unmounted; only a positive mounted determination aborts the run. -/
theorem claim_C2_probe_error_nonfatal (e : Nat) (force flush : Bool)
    (flags : Nat) (sizeArg : Option Nat) (env : Env)
    (h : env.checkIfMounted = .error e) :
    runMain force flush flags sizeArg env =
      ((runMain force flush flags sizeArg
          { env with checkIfMounted := .ok false }).1,
       Ev.mountProbeErr ::
         (runMain force flush flags sizeArg
            { env with checkIfMounted := .ok false }).2) := by
  have e3 : mainAfterFlush force flags (sizeArg.getD 0)
      { env with checkIfMounted := Except.ok false } =
      mainAfterFlush force flags (sizeArg.getD 0) env :=
    mainAfterFlush_mount_irrel force flags (sizeArg.getD 0) env (Except.ok false)
  simp only [runMain, check_mount, h, e3]
  cases flush
  · simp
  · rcases hfo : env.flushOpen with e1 | u1
    · simp [hfo]
    · rcases hfi : env.flushIoctl with e2 | u2 <;> simp [hfo, hfi, e3]

/-- Claim C2 witness: the amended statement at the concrete probe-failing
environment. -/
theorem claim_C2_probe_error_nonfatal_witness :
    runMain false false 0 none { envBase with checkIfMounted := .error 5 } =
      ((runMain false false 0 none
          { envBase with checkIfMounted := .ok false }).1,
       Ev.mountProbeErr ::
         (runMain false false 0 none
            { envBase with checkIfMounted := .ok false }).2) :=
  claim_C2_probe_error_nonfatal 5 false false 0 none
    { envBase with checkIfMounted := .error 5 } rfl

/-! Claim C6. -/

/-- Claim C6 counterexample: on the scripted sequence the multiplexer makes
five indicator-update calls — one for every event, because the source also
issues an update right after opening (current 0) and right before closing
(current at maximum) — while only one event of the sequence is intermediate,
so the update count is not one per intermediate event. -/
theorem claim_C6_counterexample :
    countUpdates (progressRun true script).2 = 5 ∧
    script.countP isIntermediate = 1 ∧
    countUpdates (progressRun true script).2 ≠ script.countP isIntermediate := by
  decide

/-- Claim C6 as amended: on the scripted sequence the multiplexer makes
exactly two indicator-open calls, exactly two indicator-close calls, and an
indicator-update call on every event with a live indicator — five in total,
covering the opening event, the single intermediate event, and the
completion event of each pass — and no indicator remains open after the
sequence. -/
theorem claim_C6_round_trip :
    countOpens (progressRun true script).2 = 2 ∧
    countUpdates (progressRun true script).2 = 5 ∧
    countCloses (progressRun true script).2 = 2 ∧
    (progressRun true script).1 = none := by decide

/-! Claim C9. -/

/-- Claim C9: an explicit requested size of 0 is indistinguishable from
omitting the size argument — the two runs are equal for every environment —
and the resolver maps a zero request to the probed device capacity, so a
literal request of 0 blocks is always replaced by the capacity before any
gate or the engine sees it. -/
theorem claim_C9_zero_size_is_no_size :
    (∀ (force flush : Bool) (flags : Nat) (env : Env),
        runMain force flush flags (some 0) env =
          runMain force flush flags none env) ∧
    ∀ cap : Nat, resolveSize 0 cap = cap := by
  exact ⟨fun _ _ _ _ => rfl, fun _ => rfl⟩

/-- When the run reaches size resolution and the resolved size equals the
current block count while the capacity gate passes, the run is the no-op
success, with the flush marker in front when requested. -/
theorem runMain_noop_shape (force flush : Bool) (flags : Nat)
    (sizeArg : Option Nat) (env : Env) (sb : Ext2Sb) (cap : Nat)
    (hm : env.checkIfMounted = .ok false)
    (hfl : flush = false ∨ (env.flushOpen = .ok () ∧ env.flushIoctl = .ok ()))
    (ho : env.openFs = .ok sb)
    (hfc : featureUnsupported sb.s_feature_compat env.featureCompatSupp = false)
    (hfi : featureUnsupported sb.s_feature_incompat env.featureRoCompatSupp = false)
    (hd : env.deviceSize = .ok cap)
    (heq : resolveSize (sizeArg.getD 0) cap = sb.s_blocks_count)
    (hcap2 : ¬(force = false ∧ cap < resolveSize (sizeArg.getD 0) cap)) :
    runMain force flush flags sizeArg env =
      ((0 : Nat), (if flush then [Ev.flushPerformed] else []) ++
        [Ev.fsOpened, Ev.noopMsg sb.s_blocks_count]) := by
  have hopen : mainAfterOpen force flags (sizeArg.getD 0) env sb =
      (0, [Ev.noopMsg sb.s_blocks_count]) := by
    unfold mainAfterOpen
    rw [if_neg (by simp [hfc, hfi]), hd]
    simp only [if_neg hcap2, if_pos heq]
    rw [heq]
  have hmf : mainAfterFlush force flags (sizeArg.getD 0) env =
      (0, [Ev.fsOpened, Ev.noopMsg sb.s_blocks_count]) := by
    simp [mainAfterFlush, ho, hopen]
  rw [runMain_unmounted_shape force flush flags sizeArg env hm hfl, hmf]

/-! Claim C3. -/

/-- Claim C3 counterexample: a forced run whose explicit requested size
(800) strictly exceeds the probed capacity (500) but equals the current
block count (800) takes the no-op exit, so the engine is never invoked —
the claim that with force the engine is invoked with exactly the requested
size fails. -/
theorem claim_C3_counterexample :
    runMain true false 0 (some 800)
      { envBase with openFs := .ok { sbBase with s_blocks_count := 800 },
                     deviceSize := .ok 500 } =
      (0, [Ev.fsOpened, Ev.noopMsg 800]) := by decide

/-- Claim C3 as amended: for every run that reaches size resolution with an
explicit requested size strictly greater than the probed capacity — without
force the run fails with exit code 1 reporting both the requested size and
the capacity and the engine is never invoked; with force the capacity gate
does not block, and provided the requested size also differs from the
current block count the engine is invoked with exactly the requested size. -/
theorem claim_C3_capacity_gate (force flush : Bool) (flags n cap : Nat)
    (env : Env) (sb : Ext2Sb)
    (hm : env.checkIfMounted = .ok false)
    (hfl : flush = false ∨ (env.flushOpen = .ok () ∧ env.flushIoctl = .ok ()))
    (ho : env.openFs = .ok sb)
    (hfc : featureUnsupported sb.s_feature_compat env.featureCompatSupp = false)
    (hfi : featureUnsupported sb.s_feature_incompat env.featureRoCompatSupp = false)
    (hd : env.deviceSize = .ok cap)
    (hn : n ≠ 0) (hgt : cap < n) :
    (force = false →
       (runMain force flush flags (some n) env).1 = 1 ∧
       Ev.capacityErr n cap ∈ (runMain force flush flags (some n) env).2 ∧
       ∀ s b, Ev.engineInvoked s b ∉ (runMain force flush flags (some n) env).2) ∧
    (force = true → n ≠ sb.s_blocks_count →
       Ev.engineInvoked n (progressRequested flags) ∈
         (runMain force flush flags (some n) env).2) := by
  have hres : resolveSize ((some n).getD 0) cap = n := by
    simp [resolveSize, hn]
  have hshape := runMain_unmounted_shape force flush flags (some n) env hm hfl
  have hmf : mainAfterFlush force flags ((some n).getD 0) env =
      ((mainAfterOpen force flags n env sb).1,
       Ev.fsOpened :: (mainAfterOpen force flags n env sb).2) := by
    simp [mainAfterFlush, ho]
  constructor
  · intro hforce
    subst hforce
    have hopen : mainAfterOpen false flags n env sb =
        (1, [Ev.capacityErr n cap]) := by
      unfold mainAfterOpen
      rw [if_neg (by simp [hfc, hfi]), hd]
      simp [resolveSize, hn, hgt]
    rw [hshape, hmf, hopen]
    cases flush <;> simp
  · intro hforce hne
    subst hforce
    have hres0 : resolveSize n cap = n := by simp [resolveSize, hn]
    have hcap2 : ¬(true = false ∧ cap < resolveSize n cap) := by simp
    have hne2 : resolveSize n cap ≠ sb.s_blocks_count := by
      rw [hres0]; exact hne
    have hck2 : ¬(true = false ∧ sb.s_lastcheck < sb.s_mtime) := by simp
    obtain ⟨_, hmem⟩ := mainAfterOpen_engine_shape true flags n
      env sb cap hfc hfi hd hcap2 hne2 hck2
    rw [hres0] at hmem
    rw [hshape, hmf]
    cases flush <;> simp <;> exact hmem

/-- Claim C3 witness: the amended statement at a concrete run with requested
size 800 and capacity 500 and without force, giving the capacity failure. -/
theorem claim_C3_capacity_gate_witness :
    (runMain false false 0 (some 800)
        { envBase with deviceSize := .ok 500 }).1 = 1 ∧
    Ev.capacityErr 800 500 ∈
      (runMain false false 0 (some 800)
        { envBase with deviceSize := .ok 500 }).2 :=
  let h := claim_C3_capacity_gate false false 0 800 500
    { envBase with deviceSize := .ok 500 } sbBase rfl (Or.inl rfl) rfl
    (by decide) (by decide) rfl (by decide) (by decide)
  ⟨(h.1 rfl).1, (h.1 rfl).2.1⟩

/-! Claim C4. -/

/-- Claim C4 counterexample: a run whose resolved target size (800) equals
the current block count (800) but exceeds the probed capacity (500) without
force fails at the capacity gate with exit code 1 — the capacity gate runs
before the no-op check, so such a run does not terminate successfully. -/
theorem claim_C4_counterexample :
    runMain false false 0 (some 800)
      { envBase with openFs := .ok { sbBase with s_blocks_count := 800 },
                     deviceSize := .ok 500 } =
      (1, [Ev.fsOpened, Ev.capacityErr 800 500]) := by decide

/-- Claim C4 as amended: for every run that reaches size resolution with a
resolved target equal to the current block count and passing the capacity
gate (force set, or the resolved size not exceeding the capacity), the run
terminates with exit code 0, prints the no-op message, and never invokes the
engine. -/
theorem claim_C4_noop_success (force flush : Bool) (flags : Nat)
    (sizeArg : Option Nat) (env : Env) (sb : Ext2Sb) (cap : Nat)
    (hm : env.checkIfMounted = .ok false)
    (hfl : flush = false ∨ (env.flushOpen = .ok () ∧ env.flushIoctl = .ok ()))
    (ho : env.openFs = .ok sb)
    (hfc : featureUnsupported sb.s_feature_compat env.featureCompatSupp = false)
    (hfi : featureUnsupported sb.s_feature_incompat env.featureRoCompatSupp = false)
    (hd : env.deviceSize = .ok cap)
    (heq : resolveSize (sizeArg.getD 0) cap = sb.s_blocks_count)
    (hcap : force = true ∨ ¬ cap < resolveSize (sizeArg.getD 0) cap) :
    (runMain force flush flags sizeArg env).1 = 0 ∧
    Ev.noopMsg sb.s_blocks_count ∈ (runMain force flush flags sizeArg env).2 ∧
    ∀ s b, Ev.engineInvoked s b ∉ (runMain force flush flags sizeArg env).2 := by
  have hcap2 : ¬(force = false ∧ cap < resolveSize (sizeArg.getD 0) cap) := by
    rcases hcap with h | h
    · simp [h]
    · exact fun hc => h hc.2
  have hopen : mainAfterOpen force flags (sizeArg.getD 0) env sb =
      (0, [Ev.noopMsg sb.s_blocks_count]) := by
    unfold mainAfterOpen
    rw [if_neg (by simp [hfc, hfi]), hd]
    simp only [if_neg hcap2, if_pos heq]
    rw [heq]
  have hmf : mainAfterFlush force flags (sizeArg.getD 0) env =
      (0, Ev.fsOpened :: [Ev.noopMsg sb.s_blocks_count]) := by
    simp [mainAfterFlush, ho, hopen]
  rw [runMain_unmounted_shape force flush flags sizeArg env hm hfl, hmf]
  cases flush <;> simp

/-- Claim C4 witness: the amended statement at a concrete no-op run —
capacity 1000, current size 1000, no size argument. -/
theorem claim_C4_noop_success_witness :
    (runMain false false 0 none
        { envBase with openFs := .ok { sbBase with s_blocks_count := 1000 } }).1
      = 0 ∧
    Ev.noopMsg 1000 ∈
      (runMain false false 0 none
        { envBase with openFs := .ok { sbBase with s_blocks_count := 1000 } }).2 :=
  let h := claim_C4_noop_success false false 0 none
    { envBase with openFs := .ok { sbBase with s_blocks_count := 1000 } }
    { sbBase with s_blocks_count := 1000 } 1000 rfl (Or.inl rfl) rfl
    (by decide) (by decide) rfl (by decide) (Or.inr (by decide))
  ⟨h.1, h.2.1⟩

/-! Claim C5. -/

/-- Claim C5 counterexample: a run with the flush flag in which opening the
filesystem fails shows the flush being performed although the filesystem
handle was never opened, no capacity was probed, no plan was resolved and no
later gate ran — the flush is not performed after those steps. -/
theorem claim_C5_counterexample :
    runMain false true 0 none { envBase with openFs := .error 2 } =
      (1, [Ev.flushPerformed, Ev.openErr]) := by decide

/-- Claim C5 as amended: the requested device cache flush is performed
immediately after the mount gate and strictly before the filesystem handle
is opened, the capacity is probed, the plan is resolved, any later gate
runs, or the engine is invoked; a failure of either flush step (the open for
flushing, or the flush ioctl) terminates the run with exit code 1 before any
of those steps. -/
theorem claim_C5_flush_before_open (force : Bool) (flags : Nat)
    (sizeArg : Option Nat) (env : Env)
    (hm : env.checkIfMounted = .ok false) :
    (∀ e, env.flushOpen = .error e →
        runMain force true flags sizeArg env = (1, [Ev.flushOpenErr])) ∧
    (∀ e u, env.flushOpen = .ok u → env.flushIoctl = .error e →
        runMain force true flags sizeArg env = (1, [Ev.flushIoctlErr])) ∧
    (∀ u v, env.flushOpen = .ok u → env.flushIoctl = .ok v →
        runMain force true flags sizeArg env =
          ((mainAfterFlush force flags (sizeArg.getD 0) env).1,
           Ev.flushPerformed ::
             (mainAfterFlush force flags (sizeArg.getD 0) env).2)) := by
  refine ⟨fun e he => ?_, fun e u hu he => ?_, fun u v hu hv => ?_⟩
  · simp [runMain, check_mount, hm, he]
  · simp [runMain, check_mount, hm, hu, he]
  · simp [runMain, check_mount, hm, hu, hv]

/-- Claim C5 witness: the amended statement at the benign environment — the
successful flush precedes the whole after-flush stage. -/
theorem claim_C5_flush_before_open_witness :
    runMain false true 0 none envBase =
      ((mainAfterFlush false 0 (Option.getD none 0) envBase).1,
       Ev.flushPerformed ::
         (mainAfterFlush false 0 (Option.getD none 0) envBase).2) :=
  (claim_C5_flush_before_open false 0 none envBase rfl).2.2 () () rfl rfl

/-- Every event of a run trace is one of the fixed preamble events or an
event of the after-open stage for the superblock the open returned. -/
theorem mem_runMain_cases (force flush : Bool) (flags : Nat)
    (sizeArg : Option Nat) (env : Env) (x : Ev)
    (hx : x ∈ (runMain force flush flags sizeArg env).2) :
    x = Ev.mountProbeErr ∨ x = Ev.mountedErr ∨ x = Ev.flushOpenErr ∨
    x = Ev.flushIoctlErr ∨ x = Ev.flushPerformed ∨ x = Ev.openErr ∨
    x = Ev.fsOpened ∨
    ∃ sb, env.openFs = Except.ok sb ∧
      x ∈ (mainAfterOpen force flags (sizeArg.getD 0) env sb).2 := by
  have hopen : x ∈ (mainAfterFlush force flags (sizeArg.getD 0) env).2 →
      x = Ev.openErr ∨ x = Ev.fsOpened ∨
      ∃ sb, env.openFs = Except.ok sb ∧
        x ∈ (mainAfterOpen force flags (sizeArg.getD 0) env sb).2 := by
    intro hmem
    rcases hof : env.openFs with e2 | sb <;>
      unfold mainAfterFlush at hmem <;> rw [hof] at hmem <;> simp at hmem
    · exact Or.inl hmem
    · rcases hmem with h | h
      · exact Or.inr (Or.inl h)
      · exact Or.inr (Or.inr ⟨sb, rfl, h⟩)
  rcases hcm : env.checkIfMounted with e | m
  · cases flush
    · simp only [runMain, check_mount, hcm] at hx
      simp at hx
      rcases hx with h | h
      · exact Or.inl h
      · rcases hopen h with h2 | h2 | h2 <;> tauto
    · rcases hfo : env.flushOpen with e2 | u
      · simp only [runMain, check_mount, hcm, hfo] at hx
        simp at hx
        tauto
      · rcases hfi : env.flushIoctl with e3 | v
        · simp only [runMain, check_mount, hcm, hfo, hfi] at hx
          simp at hx
          tauto
        · simp only [runMain, check_mount, hcm, hfo, hfi] at hx
          simp at hx
          rcases hx with h | h | h
          · tauto
          · tauto
          · rcases hopen h with h2 | h2 | h2 <;> tauto
  · cases m
    · cases flush
      · simp only [runMain, check_mount, hcm] at hx
        simp at hx
        rcases hopen hx with h2 | h2 | h2 <;> tauto
      · rcases hfo : env.flushOpen with e2 | u
        · simp only [runMain, check_mount, hcm, hfo] at hx
          simp at hx
          tauto
        · rcases hfi : env.flushIoctl with e3 | v
          · simp only [runMain, check_mount, hcm, hfo, hfi] at hx
            simp at hx
            tauto
          · simp only [runMain, check_mount, hcm, hfo, hfi] at hx
            simp at hx
            rcases hx with h | h
            · tauto
            · rcases hopen h with h2 | h2 | h2 <;> tauto
    · simp only [runMain, check_mount, hcm] at hx
      simp at hx
      tauto

/-! Claim C7. -/

/-- Claim C7 counterexample: a forced run on a filesystem whose read-only-
compatible bitmask carries a bit the library masks do not cover (bit 31,
with both support masks empty) passes the feature gate and invokes the
engine — the driver never examines s_feature_ro_compat, so an unrecognized
read-only-compatible feature bit does not fail with the unsupported-feature
error. -/
theorem claim_C7_counterexample :
    runMain true false 0 none
      { envBase with
          openFs := .ok { sbBase with s_feature_ro_compat := 2147483648 } } =
      (0, [Ev.fsOpened, Ev.engineInvoked 1000 false, Ev.successMsg 1000]) := by
  decide

/-- Claim C7 as amended: with force set the mount gate is still enforced (a
mounted device fails with the mounted error and nothing else runs) and the
feature gate is still enforced — where that gate fails when the compatible
bitmask has bits outside the library compat-support mask or the incompatible
bitmask has bits outside the library ro-compat-support mask, the
read-only-compatible bitmask never being examined — while the capacity gate
and the consistency gate are bypassed: no forced run ever reports a capacity
error or the fsck-needed message. -/
theorem claim_C7_force_gates (flush : Bool) (flags : Nat)
    (sizeArg : Option Nat) (env : Env) :
    (env.checkIfMounted = .ok true →
        runMain true flush flags sizeArg env = (1, [Ev.mountedErr])) ∧
    (∀ sb, env.checkIfMounted = .ok false →
        (flush = false ∨ (env.flushOpen = .ok () ∧ env.flushIoctl = .ok ())) →
        env.openFs = .ok sb →
        (featureUnsupported sb.s_feature_compat env.featureCompatSupp = true ∨
         featureUnsupported sb.s_feature_incompat env.featureRoCompatSupp = true) →
        (runMain true flush flags sizeArg env).1 = 1 ∧
        Ev.featureErr ∈ (runMain true flush flags sizeArg env).2 ∧
        ∀ s b, Ev.engineInvoked s b ∉ (runMain true flush flags sizeArg env).2) ∧
    (∀ r c, Ev.capacityErr r c ∉ (runMain true flush flags sizeArg env).2) ∧
    Ev.needsCheckMsg ∉ (runMain true flush flags sizeArg env).2 := by
  refine ⟨fun h => ?_, fun sb hm hfl ho hus => ?_, fun r c hmem => ?_,
    fun hmem => ?_⟩
  · simp [runMain, check_mount, h]
  · have hopen : mainAfterOpen true flags (sizeArg.getD 0) env sb =
        (1, [Ev.featureErr]) := by
      unfold mainAfterOpen
      rw [if_pos hus]
    have hmf : mainAfterFlush true flags (sizeArg.getD 0) env =
        (1, [Ev.fsOpened, Ev.featureErr]) := by
      simp [mainAfterFlush, ho, hopen]
    rw [runMain_unmounted_shape true flush flags sizeArg env hm hfl, hmf]
    cases flush <;> simp
  · rcases mem_runMain_cases true flush flags sizeArg env _ hmem with
      h | h | h | h | h | h | h | ⟨sb, _, h⟩
    all_goals first
      | (simp at h)
      | exact capacityErr_not_mem_afterOpen_force flags (sizeArg.getD 0)
          env sb r c h
  · rcases mem_runMain_cases true flush flags sizeArg env _ hmem with
      h | h | h | h | h | h | h | ⟨sb, _, h⟩
    all_goals first
      | (simp at h)
      | exact needsCheck_not_mem_afterOpen_force flags (sizeArg.getD 0)
          env sb h

/-- Claim C7 witness: the amended statement at two concrete forced runs —
one on a mounted device, which still fails at the mount gate, and one with
an unrecognized compatible feature bit, which still fails at the feature
gate. -/
theorem claim_C7_force_gates_witness :
    runMain true false 0 (some 800)
        { envBase with checkIfMounted := .ok true } = (1, [Ev.mountedErr]) ∧
    (runMain true false 0 none
        { envBase with
            openFs := .ok { sbBase with s_feature_compat := 1 } }).1 = 1 :=
  ⟨(claim_C7_force_gates false 0 (some 800)
      { envBase with checkIfMounted := .ok true }).1 rfl,
   ((claim_C7_force_gates false 0 none
      { envBase with
          openFs := .ok { sbBase with s_feature_compat := 1 } }).2.1
      { sbBase with s_feature_compat := 1 } rfl (Or.inl rfl) rfl
      (Or.inl (by decide))).1⟩

/-! Claim C8. -/

/-- Claim C8 counterexample: a run on a mounted device whose requested size
(800) equals its current block count fails at the mount gate with exit code
1 and never reaches the no-op exit — so the no-op exit is not taken before
the mount gate has been checked. -/
theorem claim_C8_counterexample :
    runMain false false 0 (some 800)
      { envBase with checkIfMounted := .ok true,
                     openFs := .ok { sbBase with s_blocks_count := 800 } } =
      (1, [Ev.mountedErr]) := by decide

/-- Claim C8 as amended: the no-op exit is taken after the mount gate, the
optional flush, the open, the feature gate and the capacity gate, but
before the consistency gate — a run whose resolved size equals the current
block count exits 0 with the no-op message and without the fsck-needed
message even when the last-check timestamp precedes the last-modify
timestamp and force is not set. -/
theorem claim_C8_noop_skips_consistency_only (flush : Bool) (flags : Nat)
    (sizeArg : Option Nat) (env : Env) (sb : Ext2Sb) (cap : Nat)
    (hm : env.checkIfMounted = .ok false)
    (hfl : flush = false ∨ (env.flushOpen = .ok () ∧ env.flushIoctl = .ok ()))
    (ho : env.openFs = .ok sb)
    (hfc : featureUnsupported sb.s_feature_compat env.featureCompatSupp = false)
    (hfi : featureUnsupported sb.s_feature_incompat env.featureRoCompatSupp = false)
    (hd : env.deviceSize = .ok cap)
    (heq : resolveSize (sizeArg.getD 0) cap = sb.s_blocks_count)
    (hcap : ¬ cap < resolveSize (sizeArg.getD 0) cap)
    (_hstale : sb.s_lastcheck < sb.s_mtime) :
    (runMain false flush flags sizeArg env).1 = 0 ∧
    Ev.noopMsg sb.s_blocks_count ∈ (runMain false flush flags sizeArg env).2 ∧
    Ev.needsCheckMsg ∉ (runMain false flush flags sizeArg env).2 ∧
    Ev.fsOpened ∈ (runMain false flush flags sizeArg env).2 := by
  have hcap2 : ¬((false : Bool) = false ∧ cap < resolveSize (sizeArg.getD 0) cap) :=
    fun hc => hcap hc.2
  rw [runMain_noop_shape false flush flags sizeArg env sb cap hm hfl ho hfc hfi
    hd heq hcap2]
  cases flush <;> simp

/-- A 1000-block superblock with stale timestamps: last check at 3, last
modification at 9. -/
def sbStale1000 : Ext2Sb :=
  { sbBase with s_blocks_count := 1000, s_lastcheck := 3, s_mtime := 9 }

/-- The benign environment over the stale 1000-block filesystem. -/
def envStale1000 : Env := { envBase with openFs := .ok sbStale1000 }

/-- Claim C8 witness: the amended statement at a concrete run — capacity
1000, current size 1000, no size argument, timestamps stale (last check 3,
last modification 9), no force — which exits 0 as a no-op. -/
theorem claim_C8_noop_skips_consistency_only_witness :
    (runMain false false 0 none envStale1000).1 = 0 ∧
    Ev.noopMsg 1000 ∈ (runMain false false 0 none envStale1000).2 :=
  let h := claim_C8_noop_skips_consistency_only false 0 none envStale1000
    sbStale1000 1000 rfl (Or.inl rfl) rfl (by decide) (by decide) rfl
    (by decide) (by decide) (by decide)
  ⟨h.1, h.2.1⟩

/-! Claim C10. -/

/-- Claim C10: the -d debug mask is OR-ed into the same flag bitset that -p
ORs the percent-complete bit into; every engine invocation in every run
carries a progress callback exactly when that combined bitset has the
percent-complete bit set — so a -d mask containing the bit enables progress
reporting just like -p does. -/
theorem claim_C10_debug_mask_progress (os : List Opt) (m : Nat)
    (force flush : Bool) (flags : Nat) (sizeArg : Option Nat) (env : Env) :
    (parseOpts (os ++ [Opt.d m])).flags = (parseOpts os).flags ||| m ∧
    (parseOpts (os ++ [Opt.p])).flags =
      (parseOpts os).flags ||| RESIZE_PERCENT_COMPLETE ∧
    (∀ s b, Ev.engineInvoked s b ∈ (runMain force flush flags sizeArg env).2 →
        b = progressRequested flags) ∧
    (progressRequested flags = true ↔ flags &&& RESIZE_PERCENT_COMPLETE ≠ 0) := by
  refine ⟨?_, ?_, fun s b hmem => ?_, ?_⟩
  · simp [parseOpts, List.foldl_append, applyOpt]
  · simp [parseOpts, List.foldl_append, applyOpt]
  · rcases mem_runMain_cases force flush flags sizeArg env _ hmem with
      h | h | h | h | h | h | h | ⟨sb, _, h⟩
    all_goals first
      | (simp at h)
      | exact engineInvoked_mem_afterOpen force flags (sizeArg.getD 0)
          env sb s b h
  · simp [progressRequested]

/-- Claim C10 witness: at a concrete run with only -d 256 (no -p), the
engine receives the progress callback, and the option-fold equation holds
at that mask. -/
theorem claim_C10_debug_mask_progress_witness :
    (parseOpts ([] ++ [Opt.d 256])).flags = (parseOpts []).flags ||| 256 ∧
    true = progressRequested 256 :=
  let h := claim_C10_debug_mask_progress [] 256 false false 256
    (some 800) envBase
  ⟨h.1, h.2.2.1 800 true (by decide)⟩

end Resize2fs
